import Mathlib

set_option maxHeartbeats 1000000

/-!
Verification of the specification of `Project/utils/io.py` (dataset
discovery and target-column selection helpers) against a shallow
embedding of that module.

Modelling conventions:
* filesystem existence checks (`pathlib.Path(p).exists()`) become a
  predicate `ex : String → Bool` on path strings;
* the environment variables `CSV_PATH` and `TARGET` become
  `Option String` values (`none` = unset);
* the external collaborator `safe_col` (the name sanitizer, declared out
  of scope by the spec) becomes an arbitrary function `String → String`
  passed in as a parameter;
* the repository root `REPO_ROOT` becomes a string parameter `root`;
* a pandas cell is `Option Value` (`none` = missing / `NaN`), a `Series`
  records its cells together with whether `series.dtype == bool`, and a
  `DataFrame` is an ordered list of named columns.
-/

namespace AutoML

/-- A cell value of a loaded table: string, integer or boolean.  A missing
value (pandas `NaN` / `None`) is modelled as `Option.none` at the cell
level, mirroring what `Series.dropna` removes. -/
inductive Value : Type where
  | vStr : String → Value
  | vInt : Int → Value
  | vBool : Bool → Value
deriving DecidableEq, Repr

/-- Python `str(v)` on a cell value. -/
def pyStr : Value → String
  | .vStr s => s
  | .vInt n => toString n
  | .vBool b => if b then "True" else "False"

/-- Python `s.strip()`: drop leading and trailing whitespace (modelled on
the character list of the string). -/
def pyStrip (s : String) : String :=
  ⟨((s.data.dropWhile Char.isWhitespace).reverse.dropWhile Char.isWhitespace).reverse⟩

/-- Python `s.lower()` (modelled on the character list of the string). -/
def pyLower (s : String) : String :=
  ⟨s.data.map Char.toLower⟩

/-- Python `s.startswith("i")`: the first character is `i`. -/
def startsWithI (s : String) : Bool :=
  match s.data with
  | [] => false
  | c :: _ => c == 'i'

/-- A column of the table (pandas `Series`): `dtypeBool` records whether
`series.dtype == bool`, `cells` the values with `none` for missing
entries. -/
structure Series : Type where
  dtypeBool : Bool
  cells : List (Option Value)
deriving DecidableEq, Repr

/-- A pandas `DataFrame`: ordered, named columns. -/
structure DataFrame : Type where
  cols : List (String × Series)
deriving DecidableEq, Repr

/-- `list(df.columns)`. -/
def dfColumns (df : DataFrame) : List String := df.cols.map Prod.fst

/-- `df[c]`: the (first) column labelled `c`. -/
def colSeries (df : DataFrame) (c : String) : Series :=
  ((df.cols.find? (fun p => p.1 == c)).map Prod.snd).getD ⟨false, []⟩

/-! ## `find_csv` (the Path Resolver) -/

/-- The fixed candidate path list of `find_csv`, relative to `REPO_ROOT`
(modelled by the string `root`). -/
def candidates (root : String) : List String :=
  [ root ++ "/src/data/modeldata.csv"
  , root ++ "/src/data/modeldata_demo.csv"
  , root ++ "/Project/src/data/modeldata.csv"
  , root ++ "/Project/src/data/modeldata_demo.csv"
  , root ++ "/src/data/datasets/tabular/modeldata.csv"
  , root ++ "/src/data/datasets/tabular/modeldata_demo.csv" ]

/-- The message of the `FileNotFoundError` raised by `find_csv`. -/
def notFoundMsg : String :=
  "Could not locate dataset. Set CSV_PATH or place modeldata.csv under src/data/."

/-- The candidate loop of `find_csv`: return the first existing candidate,
else raise `FileNotFoundError`. -/
def findCandidate (ex : String → Bool) (root : String) : Except String String :=
  match (candidates root).find? ex with
  | some c => .ok c
  | none => .error notFoundMsg

/-- `find_csv`: `env = os.getenv("CSV_PATH")`; `if env and
Path(env).exists(): return env`; otherwise the candidate loop.  The
Python truthiness test on `env` short-circuits, so an empty string skips
the existence check entirely. -/
def find_csv (ex : String → Bool) (envCsvPath : Option String) (root : String) :
    Except String String :=
  match envCsvPath with
  | some e =>
    if e = "" then findCandidate ex root
    else if ex e then .ok e
    else findCandidate ex root
  | none => findCandidate ex root

/-! ### Helper lemmas for the Path Resolver -/

theorem find?_ext {α : Type} (f g : α → Bool) :
    ∀ l : List α, (∀ x ∈ l, f x = g x) → l.find? f = l.find? g := by
  intro l
  induction l with
  | nil => intro _; rfl
  | cons a t ih =>
    intro h
    have ha : f a = g a := h a (List.mem_cons_self a t)
    have ht : t.find? f = t.find? g := ih (fun x hx => h x (List.mem_cons_of_mem a hx))
    cases hfa : f a with
    | true =>
      rw [List.find?_cons_of_pos t hfa, List.find?_cons_of_pos t (ha ▸ hfa)]
    | false =>
      rw [List.find?_cons_of_neg t (by simp [hfa]), List.find?_cons_of_neg t (by simp [ha ▸ hfa]), ht]

theorem append_ne_empty_of_right (a b : String) (hb : b ≠ "") : a ++ b ≠ "" := by
  intro h
  apply hb
  have hd : (a ++ b).data = ("" : String).data := congrArg String.data h
  rw [String.data_append] at hd
  have hbd : b.data = [] := (List.append_eq_nil.mp hd).2
  cases b with
  | mk d => cases hbd; rfl

theorem candidates_ne_empty (root : String) : ∀ c ∈ candidates root, c ≠ "" := by
  intro c hc
  simp only [candidates, List.mem_cons, List.not_mem_nil, or_false] at hc
  rcases hc with h | h | h | h | h | h <;>
    (subst h; exact append_ne_empty_of_right _ _ (by decide))

/-! ### C5 -/

/-- Filesystem in which every queried path exists. -/
def allExists : String → Bool := fun _ => true

/-- C5 counterexample: with `CSV_PATH` set to the empty string — a set
value which, through Python's `Path("")` = `Path(".")`, names an existing
path — `find_csv` does not return the override; it falls through to the
candidate list.  So it is not true that every set-and-existing `CSV_PATH`
value is returned. -/
theorem find_csv_override_empty_cex :
    allExists "" = true ∧
    find_csv allExists (some "") "R" = .ok ("R" ++ "/src/data/modeldata.csv") ∧
    find_csv allExists (some "") "R" ≠ .ok "" := by
  refine ⟨rfl, rfl, fun h => ?_⟩
  have : ("R" ++ "/src/data/modeldata.csv" : String) = "" := by
    have h2 : find_csv allExists (some "") "R" = .ok ("R" ++ "/src/data/modeldata.csv") := rfl
    exact Except.ok.inj (h2.symm.trans h)
  exact append_ne_empty_of_right _ _ (by decide) this

/-- C5 (amended): if `CSV_PATH` is set to a nonempty string that names an
existing path, `find_csv` returns exactly that path, regardless of which
candidate-list files exist. -/
theorem find_csv_override_hit (ex : String → Bool) (root p : String)
    (hp : p ≠ "") (hex : ex p = true) :
    find_csv ex (some p) root = .ok p := by
  simp [find_csv, hp, hex]

/-- Filesystem in which exactly the path `x` exists. -/
def onlyX : String → Bool := fun s => s == "x"

theorem find_csv_override_hit_w :
    find_csv onlyX (some "x") "R" = .ok "x" :=
  find_csv_override_hit onlyX "R" "x" (by decide) (by decide)

/-! ### C6 -/

/-- C6: a `CSV_PATH` override naming a non-existent path is silently
ignored; when some candidate exists, `find_csv` succeeds with the first
existing candidate in the fixed order (no failure). -/
theorem find_csv_override_miss (ex : String → Bool) (root p c : String)
    (hex : ex p = false) (hc : (candidates root).find? ex = some c) :
    find_csv ex (some p) root = .ok c := by
  by_cases hp : p = "" <;> simp [find_csv, hp, hex, findCandidate, hc]

/-- Filesystem in which exactly the demo candidate under root `R` exists. -/
def onlyDemo : String → Bool := fun s => s == "R/src/data/modeldata_demo.csv"

theorem find_csv_override_miss_w :
    find_csv onlyDemo (some "missing.csv") "R" = .ok ("R" ++ "/src/data/modeldata_demo.csv") :=
  find_csv_override_miss onlyDemo "R" "missing.csv" ("R" ++ "/src/data/modeldata_demo.csv")
    (by decide) (by decide)

/-! ### C7 -/

/-- C7: with `CSV_PATH` unset or naming a non-existent path, and no
candidate path existing, `find_csv` fails with the not-found message,
and that message names the override variable `CSV_PATH` and the default
subdirectory `src/data/`. -/
theorem find_csv_not_found (ex : String → Bool) (root : String) (envCsvPath : Option String)
    (henv : envCsvPath = none ∨ ∃ p, envCsvPath = some p ∧ ex p = false)
    (hnone : ∀ c ∈ candidates root, ex c = false) :
    find_csv ex envCsvPath root = .error notFoundMsg ∧
    (∃ s t, notFoundMsg = s ++ "CSV_PATH" ++ t) ∧
    (∃ s t, notFoundMsg = s ++ "src/data/" ++ t) := by
  refine ⟨?_,
    ⟨"Could not locate dataset. Set ", " or place modeldata.csv under src/data/.", by decide⟩,
    ⟨"Could not locate dataset. Set CSV_PATH or place modeldata.csv under ", ".", by decide⟩⟩
  have hfind : (candidates root).find? ex = none := by
    rw [List.find?_eq_none]
    intro c hc
    simp [hnone c hc]
  rcases henv with h | ⟨p, hp, hexp⟩
  · simp [h, find_csv, findCandidate, hfind]
  · subst hp
    by_cases hp0 : p = "" <;> simp [find_csv, hp0, hexp, findCandidate, hfind]

/-- Filesystem in which no path exists. -/
def noneExists : String → Bool := fun _ => false

theorem find_csv_not_found_w :
    find_csv noneExists none "R" = .error notFoundMsg ∧
    (∃ s t, notFoundMsg = s ++ "CSV_PATH" ++ t) ∧
    (∃ s t, notFoundMsg = s ++ "src/data/" ++ t) :=
  find_csv_not_found noneExists "R" none (Or.inl rfl) (fun _ _ => rfl)

/-! ### C9 -/

/-- C9: an empty `CSV_PATH` behaves exactly as an unset one: the override
branch is skipped and the result does not depend on whether the
filesystem would report the empty path as existing (the existence check
is never consulted at `""`). -/
theorem find_csv_empty_env (ex : String → Bool) (root : String) (b : Bool) :
    find_csv (fun p => if p = "" then b else ex p) (some "") root =
      find_csv ex none root := by
  have h1 : find_csv (fun p => if p = "" then b else ex p) (some "") root =
      findCandidate (fun p => if p = "" then b else ex p) root := by
    simp [find_csv]
  rw [h1]
  show findCandidate _ root = findCandidate ex root
  unfold findCandidate
  rw [find?_ext _ ex (candidates root) (fun c hc => by
    rw [if_neg (candidates_ne_empty root c hc)])]

/-! ## `_is_binary` (Binary Detection) -/

/-- `series.dropna()`: the non-missing cells. -/
def nonMissing (s : Series) : List Value := s.cells.filterMap id

/-- The normalised token set of `_is_binary`. -/
def binaryTokens : List String := ["yes", "no", "true", "false", "0", "1"]

/-- `_is_binary`: bool dtype, or at most two distinct non-missing values,
or all non-blank distinct values normalise into `binaryTokens`.  The
`unique()` call is modelled by `List.dedup` (only the cardinality and the
membership of the distinct values matter here), and Python's
`str(v).strip().lower()` by `pyLower (pyStrip (pyStr v))`. -/
def isBinary (s : Series) : Bool :=
  if s.dtypeBool then true
  else
    let values := (nonMissing s).dedup
    if values.length = 0 then false
    else if values.length ≤ 2 then true
    else
      ((values.filter (fun v => decide (pyStrip (pyStr v) ≠ ""))).map
        (fun v => pyLower (pyStrip (pyStr v)))).all (fun x => decide (x ∈ binaryTokens))

/-! ### C2 -/

/-- The binary-detection predicate exactly as the claim words it:
(a) natively boolean dtype, or (b) at most 2 distinct non-missing values,
or (c) every distinct non-missing, non-blank value, stripped and
lower-cased, is a member of `binaryTokens`. -/
def specBinary (s : Series) : Bool :=
  s.dtypeBool ||
    decide ((nonMissing s).dedup.length ≤ 2) ||
    (nonMissing s).dedup.all
      (fun v => if pyStrip (pyStr v) = "" then true else decide (pyLower (pyStrip (pyStr v)) ∈ binaryTokens))

/-- Claim C2 as stated, for one series: `_is_binary` agrees with the
(a)/(b)/(c) disjunction, and a column with zero non-missing values is
never binary. -/
def claimBinaryOk (s : Series) : Prop :=
  isBinary s = specBinary s ∧ (nonMissing s = [] → isBinary s = false)

/-- C2 counterexample: an empty natively-boolean column (realisable as
`pd.Series([], dtype=bool)`) has zero non-missing values, yet
`_is_binary` returns `True` on it via the dtype short-circuit — so the
rider "a column with zero non-missing values is never binary" fails. -/
theorem isBinary_claim_cex : ¬ claimBinaryOk ⟨true, []⟩ := by
  intro h
  exact absurd (h.2 rfl) (by decide)

/-- C2 (amended): a natively boolean column is always binary, even with
zero non-missing values; any other column is binary exactly when it has
at least one non-missing value and either at most 2 distinct non-missing
values, or every distinct non-blank value, stripped and lower-cased,
belongs to `{yes, no, true, false, 0, 1}`. -/
theorem isBinary_characterization (s : Series) :
    isBinary s = true ↔
      (s.dtypeBool = true ∨
        (nonMissing s ≠ [] ∧
          ((nonMissing s).dedup.length ≤ 2 ∨
            ∀ v ∈ (nonMissing s).dedup, pyStrip (pyStr v) ≠ "" →
              pyLower (pyStrip (pyStr v)) ∈ binaryTokens))) := by
  cases hb : s.dtypeBool with
  | true => simp [isBinary, hb]
  | false =>
    by_cases hnil : nonMissing s = []
    · simp [isBinary, hb, hnil]
    · have hd : (nonMissing s).dedup ≠ [] := by
        simpa [List.dedup_eq_nil] using hnil
      have hlen : ¬ (nonMissing s).dedup.length = 0 := by
        simpa [List.length_eq_zero] using hd
      by_cases hle : (nonMissing s).dedup.length ≤ 2
      · simp [isBinary, hb, hlen, hle, hnil]
      · simp [isBinary, hb, hlen, hle, hnil, List.all_eq_true, List.mem_filter,
          List.mem_map]
        constructor
        · intro h v hv hne
          exact h _ v hv hne rfl
        · rintro h x v hv hne rfl
          exact h v hv hne

/-! ## `guess_target_column` (the Target Selector) -/

/-- The inner `_resolve` helper: `if not name: return None`, then try the
trimmed name and its sanitized form against `df.columns`, first hit
wins. -/
def resolve (safe_col : String → String) (df : DataFrame) (name : Option String) :
    Option String :=
  match name with
  | none => none
  | some n =>
    if n = "" then none
    else [pyStrip n, safe_col (pyStrip n)].find? (fun v => decide (v ∈ dfColumns df))

/-- Python's `or` on `Optional[str]` values: `none` and `some ""` are
falsy. -/
def pyOr (a b : Option String) : Option String :=
  match a with
  | none => b
  | some s => if s = "" then b else some s

/-- `_resolve(preferred) or _resolve(env_target) or _resolve("IsInsurable")`. -/
def resolveChain (safe_col : String → String) (envTarget : Option String)
    (df : DataFrame) (preferred : Option String) : Option String :=
  pyOr (resolve safe_col df preferred)
    (pyOr (resolve safe_col df envTarget) (resolve safe_col df (some "IsInsurable")))

/-- `[col for col in candidates if _is_binary(df[col])]`. -/
def binaryCols (df : DataFrame) : List String :=
  (dfColumns df).filter (fun c => isBinary (colSeries df c))

/-- Steps 4–6 of the selector: first I-prefixed binary column, else first
binary column, else the last column. -/
def fallbackTarget (df : DataFrame) : String :=
  match (binaryCols df).filter (fun c => startsWithI (pyLower c)) with
  | c :: _ => c
  | [] =>
    match binaryCols df with
    | c :: _ => c
    | [] => (dfColumns df).getLastD ""

/-- The message of the `ValueError` raised on a zero-column table. -/
def emptyColsMsg : String := "Dataframe has no columns to select a target from."

/-- `guess_target_column`: empty-table check, then the resolve chain
(`if explicit: return explicit` — a falsy `explicit`, i.e. `None` or
`""`, falls through), then the binary-column heuristics. -/
def guess_target_column (safe_col : String → String) (envTarget : Option String)
    (df : DataFrame) (preferred : Option String) : Except String String :=
  if (dfColumns df).isEmpty then .error emptyColsMsg
  else
    match resolveChain safe_col envTarget df preferred with
    | some s => if s = "" then .ok (fallbackTarget df) else .ok s
    | none => .ok (fallbackTarget df)

/-! ### Helper lemmas for the Target Selector -/

/-- The Python truthiness filter on an `Optional[str]`: `None` and `""`
are falsy. -/
def pyTruthy (o : Option String) : Option String :=
  match o with
  | none => none
  | some s => if s = "" then none else some s

theorem pyTruthy_eq_some (o : Option String) (t : String)
    (h : pyTruthy o = some t) : o = some t := by
  cases o with
  | none => simp [pyTruthy] at h
  | some s =>
    by_cases hs : s = ""
    · simp [pyTruthy, hs] at h
    · simp only [pyTruthy, if_neg hs] at h
      exact h

theorem resolve_mem (safe_col : String → String) (df : DataFrame)
    (name : Option String) (v : String) (h : resolve safe_col df name = some v) :
    v ∈ dfColumns df := by
  cases name with
  | none => simp [resolve] at h
  | some n =>
    by_cases hn : n = ""
    · simp [resolve, hn] at h
    · simp only [resolve, if_neg hn] at h
      have hp := List.find?_some h
      exact of_decide_eq_true hp

theorem pyOr_eq_some (a b : Option String) (s : String) (h : pyOr a b = some s) :
    a = some s ∨ b = some s := by
  cases a with
  | none => exact Or.inr h
  | some t =>
    by_cases ht : t = ""
    · exact Or.inr (by simpa [pyOr, ht] using h)
    · simp only [pyOr, if_neg ht] at h
      exact Or.inl h

theorem resolveChain_mem (safe_col : String → String) (envTarget : Option String)
    (df : DataFrame) (preferred : Option String) (s : String)
    (h : resolveChain safe_col envTarget df preferred = some s) :
    s ∈ dfColumns df := by
  unfold resolveChain at h
  rcases pyOr_eq_some _ _ _ h with h1 | h2
  · exact resolve_mem _ _ _ _ h1
  · rcases pyOr_eq_some _ _ _ h2 with h3 | h4
    · exact resolve_mem _ _ _ _ h3
    · exact resolve_mem _ _ _ _ h4

theorem mem_getLastD {α : Type} (d : α) :
    ∀ l : List α, l ≠ [] → l.getLastD d ∈ l := by
  intro l
  induction l with
  | nil => intro h; exact absurd rfl h
  | cons a t ih =>
    intro _
    rw [List.getLastD_eq_getLast?, List.getLast?_eq_getLast (a :: t) (by simp)]
    exact List.getLast_mem _

theorem fallbackTarget_mem (df : DataFrame) (h : dfColumns df ≠ []) :
    fallbackTarget df ∈ dfColumns df := by
  unfold fallbackTarget
  cases hpri : (binaryCols df).filter (fun c => startsWithI (pyLower c)) with
  | cons c t =>
    have hc : c ∈ binaryCols df :=
      List.mem_of_mem_filter (hpri ▸ List.mem_cons_self c t)
    exact List.mem_of_mem_filter hc
  | nil =>
    cases hbin : binaryCols df with
    | cons c t => exact List.mem_of_mem_filter (hbin ▸ List.mem_cons_self c t)
    | nil => exact mem_getLastD "" _ h

theorem guess_target_cases (safe_col : String → String) (envTarget : Option String)
    (df : DataFrame) (preferred : Option String) (h : dfColumns df ≠ []) :
    guess_target_column safe_col envTarget df preferred =
      .ok ((pyTruthy (resolveChain safe_col envTarget df preferred)).getD (fallbackTarget df)) := by
  simp only [guess_target_column]
  rw [if_neg (by simpa [List.isEmpty_iff] using h)]
  cases hc : resolveChain safe_col envTarget df preferred with
  | none => simp [pyTruthy]
  | some s => by_cases hs : s = "" <;> simp [pyTruthy, hs]

theorem guess_target_ok_of_nonempty (safe_col : String → String)
    (envTarget : Option String) (df : DataFrame) (preferred : Option String)
    (h : dfColumns df ≠ []) :
    ∃ s, guess_target_column safe_col envTarget df preferred = .ok s :=
  ⟨_, guess_target_cases safe_col envTarget df preferred h⟩

/-! ### C3 -/

/-- C3: whenever `guess_target_column` returns successfully, the returned
name is a member of the table's column set. -/
theorem guess_target_mem (safe_col : String → String) (envTarget : Option String)
    (df : DataFrame) (preferred : Option String) (s : String)
    (h : guess_target_column safe_col envTarget df preferred = .ok s) :
    s ∈ dfColumns df := by
  by_cases he : dfColumns df = []
  · rw [show guess_target_column safe_col envTarget df preferred = .error emptyColsMsg from by
      simp [guess_target_column, List.isEmpty_iff, he]] at h
    exact absurd h (by simp)
  · rw [guess_target_cases safe_col envTarget df preferred he] at h
    have hs : s = (pyTruthy (resolveChain safe_col envTarget df preferred)).getD (fallbackTarget df) :=
      (Except.ok.inj h).symm
    cases hc : pyTruthy (resolveChain safe_col envTarget df preferred) with
    | none =>
      rw [hc] at hs
      exact hs ▸ fallbackTarget_mem df he
    | some t =>
      rw [hc] at hs
      exact hs ▸ resolveChain_mem _ _ _ _ _ (pyTruthy_eq_some _ _ hc)

/-- A one-column table used as a concrete witness input. -/
def dfOneCol : DataFrame := ⟨[("a", ⟨false, [some (.vStr "x")]⟩)]⟩

theorem guess_target_mem_w : "a" ∈ dfColumns dfOneCol :=
  guess_target_mem id none dfOneCol none "a" rfl

/-! ### C4 -/

/-- C4: `guess_target_column` fails with the empty-table `ValueError` iff
the table has zero columns, and succeeds on every table with at least one
column, whatever the preferred name and `TARGET` value are. -/
theorem guess_target_empty_iff (safe_col : String → String)
    (envTarget : Option String) (df : DataFrame) (preferred : Option String) :
    (guess_target_column safe_col envTarget df preferred = .error emptyColsMsg ↔
      dfColumns df = []) ∧
    (dfColumns df ≠ [] →
      ∃ s, guess_target_column safe_col envTarget df preferred = .ok s) := by
  refine ⟨⟨fun h => ?_, fun h => ?_⟩, guess_target_ok_of_nonempty safe_col envTarget df preferred⟩
  · by_contra hne
    rcases guess_target_ok_of_nonempty safe_col envTarget df preferred hne with ⟨s, hs⟩
    rw [h] at hs
    exact absurd hs (by simp)
  · simp [guess_target_column, List.isEmpty_iff, h]

/-- The zero-column table. -/
def dfNoCols : DataFrame := ⟨[]⟩

theorem guess_target_empty_iff_w :
    guess_target_column id none dfNoCols none = .error emptyColsMsg ∧
    ∃ s, guess_target_column id none dfOneCol none = .ok s :=
  ⟨(guess_target_empty_iff id none dfNoCols none).1.mpr rfl,
    (guess_target_empty_iff id none dfOneCol none).2 (by simp [dfOneCol, dfColumns])⟩

/-! ### C10 -/

/-- C10: when the resolve chain produces the empty string as its matched
column name, `guess_target_column` discards that match and returns the
result of the binary-column heuristics instead. -/
theorem guess_target_empty_match_fallback (safe_col : String → String)
    (envTarget : Option String) (df : DataFrame) (preferred : Option String)
    (h1 : dfColumns df ≠ [])
    (h2 : resolveChain safe_col envTarget df preferred = some "") :
    guess_target_column safe_col envTarget df preferred = .ok (fallbackTarget df) := by
  rw [guess_target_cases safe_col envTarget df preferred h1, h2]
  rfl

/-- A sanitizer that collapses every name to the empty string. -/
def scEmpty : String → String := fun _ => ""

/-- A three-valued, clearly non-binary series. -/
def sNonBin1 : Series := ⟨false, [some (.vStr "aa"), some (.vStr "bb"), some (.vStr "cc")]⟩

/-- Another three-valued, clearly non-binary series. -/
def sNonBin2 : Series := ⟨false, [some (.vStr "dd"), some (.vStr "ee"), some (.vStr "ff")]⟩

/-- A table holding a column whose name is the empty string. -/
def dfEmptyName : DataFrame := ⟨[("", sNonBin1), ("z", sNonBin2)]⟩

theorem guess_target_empty_match_fallback_w :
    guess_target_column scEmpty none dfEmptyName none = .ok (fallbackTarget dfEmptyName) :=
  guess_target_empty_match_fallback scEmpty none dfEmptyName none
    (by simp [dfEmptyName, dfColumns]) rfl

/-! ### C1 -/

/-- The name-resolution helper exactly as the claim words it: trim the
candidate, return it if it is a column, else return its sanitized form if
that is a column, else no match.  (No special case for empty names.) -/
def resolveSpec (safe_col : String → String) (df : DataFrame) (cand : Option String) :
    Option String :=
  match cand with
  | none => none
  | some n =>
    let t := pyStrip n
    if t ∈ dfColumns df then some t
    else if safe_col t ∈ dfColumns df then some (safe_col t)
    else none

/-- Steps 4–6 exactly as the claim words them: the first column in table
order that is binary and whose name, case-insensitively, starts with `i`;
else the first binary column; else the last column. -/
def specFallback (df : DataFrame) : String :=
  match (dfColumns df).filter (fun c => startsWithI (pyLower c) && isBinary (colSeries df c)) with
  | c :: _ => c
  | [] =>
    match (dfColumns df).filter (fun c => isBinary (colSeries df c)) with
    | c :: _ => c
    | [] => (dfColumns df).getLastD ""

/-- The target selector exactly as claim C1 words it: resolve `preferred`,
then the `TARGET` value, then the literal `IsInsurable` — the first
resolution that succeeds determines the result — then the binary-column
heuristics. -/
def guessTargetSpec (safe_col : String → String) (envTarget : Option String)
    (df : DataFrame) (preferred : Option String) : Except String String :=
  if (dfColumns df).isEmpty then .error emptyColsMsg
  else
    match resolveSpec safe_col df preferred <|> resolveSpec safe_col df envTarget <|>
        resolveSpec safe_col df (some "IsInsurable") with
    | some s => .ok s
    | none => .ok (specFallback df)

/-- The resolution helper as the amended claim words it: a missing or
empty candidate is no match, and a resolved match equal to the empty
string is discarded (treated as no match). -/
def resolveAmended (safe_col : String → String) (df : DataFrame) (cand : Option String) :
    Option String :=
  match cand with
  | none => none
  | some n => if n = "" then none else pyTruthy (resolveSpec safe_col df (some n))

/-- The target selector as the amended claim words it: same priority
order, with the amended resolution helper. -/
def guessTargetAmended (safe_col : String → String) (envTarget : Option String)
    (df : DataFrame) (preferred : Option String) : Except String String :=
  if (dfColumns df).isEmpty then .error emptyColsMsg
  else
    match resolveAmended safe_col df preferred <|> resolveAmended safe_col df envTarget <|>
        resolveAmended safe_col df (some "IsInsurable") with
    | some s => .ok s
    | none => .ok (specFallback df)

theorem pyTruthy_pyOr (a b : Option String) :
    pyTruthy (pyOr a b) = (pyTruthy a <|> pyTruthy b) := by
  cases a with
  | none => simp [pyOr, pyTruthy, Option.none_orElse]
  | some s =>
    by_cases hs : s = "" <;>
      simp [pyOr, pyTruthy, hs, Option.some_orElse, Option.none_orElse]

theorem resolve_eq_spec (safe_col : String → String) (df : DataFrame) (n : String)
    (hn : n ≠ "") :
    resolve safe_col df (some n) = resolveSpec safe_col df (some n) := by
  simp only [resolve, if_neg hn, resolveSpec]
  by_cases h1 : pyStrip n ∈ dfColumns df <;>
    by_cases h2 : safe_col (pyStrip n) ∈ dfColumns df <;>
      simp [List.find?, h1, h2]

theorem resolveAmended_eq (safe_col : String → String) (df : DataFrame)
    (cand : Option String) :
    resolveAmended safe_col df cand = pyTruthy (resolve safe_col df cand) := by
  cases cand with
  | none => rfl
  | some n =>
    by_cases hn : n = ""
    · simp [resolveAmended, resolve, hn, pyTruthy]
    · simp only [resolveAmended, if_neg hn, resolve_eq_spec safe_col df n hn]

theorem specFallback_eq (df : DataFrame) : specFallback df = fallbackTarget df := by
  unfold specFallback fallbackTarget binaryCols
  rw [List.filter_filter]

/-- C1 (amended): `guess_target_column` coincides, on every table, every
preferred name, every `TARGET` value and every sanitizer, with the
claim's priority-order selector once resolution is amended so that a
missing or empty candidate is no match and a resolved match equal to the
empty string is discarded, falling through to the next step. -/
theorem guess_target_eq_amended (safe_col : String → String) (envTarget : Option String)
    (df : DataFrame) (preferred : Option String) :
    guess_target_column safe_col envTarget df preferred =
      guessTargetAmended safe_col envTarget df preferred := by
  by_cases hnil : dfColumns df = []
  · simp [guess_target_column, guessTargetAmended, List.isEmpty_iff, hnil]
  · rw [guess_target_cases safe_col envTarget df preferred hnil]
    unfold guessTargetAmended
    rw [if_neg (by simpa [List.isEmpty_iff] using hnil)]
    have hchain :
        (resolveAmended safe_col df preferred <|> resolveAmended safe_col df envTarget <|>
            resolveAmended safe_col df (some "IsInsurable")) =
          pyTruthy (resolveChain safe_col envTarget df preferred) := by
      rw [resolveAmended_eq, resolveAmended_eq, resolveAmended_eq, resolveChain,
        pyTruthy_pyOr, pyTruthy_pyOr]
    rw [hchain]
    cases hc : pyTruthy (resolveChain safe_col envTarget df preferred) with
    | none => simp [specFallback_eq]
    | some t => simp

/-- A table holding a column named by the empty string, for the C1
counterexample. -/
def dfC1 : DataFrame := ⟨[("", sNonBin1), ("z", sNonBin2)]⟩

/-- C1 counterexample: on a table with a column named `""` and a
whitespace preferred name, step 1 of the claim resolves successfully to
the column `""`, yet the code discards the falsy match and returns the
last column `"z"` from the heuristics — so the claim's priority order is
not what the code implements. -/
theorem guess_target_claim_cex :
    guess_target_column id none dfC1 (some " ") = .ok "z" ∧
    guessTargetSpec id none dfC1 (some " ") = .ok "" ∧
    guess_target_column id none dfC1 (some " ") ≠ guessTargetSpec id none dfC1 (some " ") := by
  refine ⟨rfl, rfl, fun h => ?_⟩
  have e1 : guess_target_column id none dfC1 (some " ") = .ok "z" := rfl
  have e2 : guessTargetSpec id none dfC1 (some " ") = .ok "" := rfl
  have hz : ("z" : String) = "" := Except.ok.inj (e1.symm.trans (h.trans e2))
  exact absurd hz (by decide)

/-! ## `load_dataset` (the Dataset Loader) -/

/-- The backward-compatibility rename of `load_dataset` applied to an
already-parsed table: if `IsInsurable` is absent and `SLA_Breached`
present, rename `SLA_Breached` to `IsInsurable` in place (pandas
`df.rename(columns={"SLA_Breached": "IsInsurable"})` keeps values and
positions and touches no other column). -/
def load_dataset_rename (df : DataFrame) : DataFrame :=
  if "IsInsurable" ∉ dfColumns df ∧ "SLA_Breached" ∈ dfColumns df then
    ⟨df.cols.map (fun p => if p.1 = "SLA_Breached" then ("IsInsurable", p.2) else p)⟩
  else df

/-! ### C8 -/

/-- C8: the rename happens iff the table contains `SLA_Breached` and no
`IsInsurable`; in that case each column is mapped in place — the renamed
column keeps its series and position, every other column is untouched —
`SLA_Breached` disappears and `IsInsurable` appears; otherwise the table
is returned unchanged. -/
theorem load_dataset_rename_spec (df : DataFrame) :
    (("SLA_Breached" ∈ dfColumns df ∧ "IsInsurable" ∉ dfColumns df) →
      ((load_dataset_rename df).cols =
          df.cols.map (fun p => if p.1 = "SLA_Breached" then ("IsInsurable", p.2) else p) ∧
        "SLA_Breached" ∉ dfColumns (load_dataset_rename df) ∧
        "IsInsurable" ∈ dfColumns (load_dataset_rename df))) ∧
    (¬("SLA_Breached" ∈ dfColumns df ∧ "IsInsurable" ∉ dfColumns df) →
      load_dataset_rename df = df) := by
  constructor
  · rintro ⟨hS, hI⟩
    have hcond : "IsInsurable" ∉ dfColumns df ∧ "SLA_Breached" ∈ dfColumns df := ⟨hI, hS⟩
    have heq : load_dataset_rename df =
        ⟨df.cols.map (fun p => if p.1 = "SLA_Breached" then ("IsInsurable", p.2) else p)⟩ := by
      unfold load_dataset_rename
      rw [if_pos hcond]
    refine ⟨by rw [heq], ?_, ?_⟩
    · rw [heq]
      simp only [dfColumns, List.map_map, List.mem_map, Function.comp]
      rintro ⟨p, hp, hfst⟩
      by_cases hp1 : p.1 = "SLA_Breached"
      · rw [if_pos hp1] at hfst
        simp at hfst
      · rw [if_neg hp1] at hfst
        exact hp1 hfst
    · rw [heq]
      rcases List.mem_map.mp hS with ⟨p, hp, hp1⟩
      simp only [dfColumns, List.map_map, List.mem_map, Function.comp]
      exact ⟨p, hp, by rw [if_pos hp1]⟩
  · intro hn
    have hcond : ¬("IsInsurable" ∉ dfColumns df ∧ "SLA_Breached" ∈ dfColumns df) :=
      fun hx => hn ⟨hx.2, hx.1⟩
    unfold load_dataset_rename
    rw [if_neg hcond]

/-- A two-valued boolean-dtype series for the C8 witness tables. -/
def sBoolCol : Series := ⟨true, [some (.vBool true), some (.vBool false)]⟩

/-- A table with `SLA_Breached` and no `IsInsurable`. -/
def df8a : DataFrame := ⟨[("SLA_Breached", sBoolCol), ("x", sNonBin1)]⟩

/-- A table with both `SLA_Breached` and `IsInsurable`. -/
def df8b : DataFrame := ⟨[("SLA_Breached", sBoolCol), ("IsInsurable", sNonBin1)]⟩

theorem load_dataset_rename_spec_w :
    "IsInsurable" ∈ dfColumns (load_dataset_rename df8a) ∧
    load_dataset_rename df8b = df8b :=
  ⟨((load_dataset_rename_spec df8a).1 (by decide)).2.2,
    (load_dataset_rename_spec df8b).2 (by decide)⟩

end AutoML
